import Mathlib

/-!
Shallow embedding of `src/tools/index_advisor/advisor.py` (the Milvus index
advisor's recommendation engine) and proofs about the spec's claims.

Modelling conventions:
* Python `int` fields become `ℤ`; Python `float` fields become `ℚ` with float
  literals read as exact decimals (0.8 ↦ 4/5, 1.1 ↦ 11/10, ...).  All claims
  compare these quantities away from representation knife edges, so exact
  rational arithmetic is a faithful model of the float computations.
* `int(x)` (truncation toward zero) becomes `pyInt`; `int(math.sqrt n)`
  becomes `pySqrtInt` (floor square root — exact for the magnitudes the
  advisor handles, far below 2^52).
* Python's f-string formatting `{n:,}` and `{x:.1f}` are implemented by
  `pyFmtComma` / `pyFmt1f`.
* `_recommend_hnsw` and `_recommend_ivf_flat` each construct the other as an
  alternative with no depth cap, so in Python they recurse forever
  (RecursionError).  They are embedded with a fuel parameter returning
  `Option Recommendation`; exhausted fuel yields `none`, and we prove that
  every fuel yields `none`, i.e. the Python calls never return.
-/

namespace IndexAdvisor

/-- The `IndexType` enumeration of advisor.py (eight members). -/
inductive IndexType where
  | FLAT
  | HNSW
  | IVF_FLAT
  | IVF_SQ8
  | IVF_PQ
  | DISK_ANN
  | GPU_IVF_FLAT
  | GPU_IVF_PQ
deriving DecidableEq

/-- The `Recommendation` dataclass of advisor.py.  `params` models the Python
dict as an association list (all parameter values in the source are ints). -/
structure Recommendation where
  index_type : IndexType
  params : List (String × ℤ)
  memory_gb : ℚ
  build_time_min : ℚ
  query_latency_p95 : ℚ
  recall_at_10 : ℚ
  reason : String
  confidence : ℚ
  alternatives : List Recommendation

/-- The requirement tuple taken by `IndexAdvisor.recommend` (its keyword
arguments, in source order). -/
structure Requirement where
  num_vectors : ℤ
  dimensions : ℤ
  latency_requirement_ms : ℚ
  memory_budget_gb : ℚ
  qps_target : ℤ
  use_case : String
  has_gpu : Bool

/-- Python `int(x)`: truncation toward zero. -/
def pyInt (q : ℚ) : ℤ :=
  if 0 ≤ q then ⌊q⌋ else ⌈q⌉

/-- Python `int(math.sqrt(n))`: floor square root (exact at the advisor's
scales; `math.sqrt` raises on negative input, which no caller produces —
for totality we send negatives to 0). -/
def pySqrtInt (n : ℤ) : ℤ :=
  (Nat.sqrt n.toNat : ℤ)

/-- Python `dict.get(key, default)` on the association-list model (the
advisor's dict literals have no duplicate keys). -/
def dictGet : List (String × ℤ) → String → ℤ → ℤ
  | [], _, dflt => dflt
  | p :: ps, key, dflt => if p.1 = key then p.2 else dictGet ps key dflt

/-- Helper for `pyFmtComma`: walk the reversed digit list inserting a comma
after every third digit. -/
def commaGroupAux : ℕ → List Char → List Char
  | _, [] => []
  | k, c :: cs =>
    if k = 3 then ',' :: c :: commaGroupAux 1 cs
    else c :: commaGroupAux (k + 1) cs

/-- Python f-string `{n:,}`: decimal rendering with thousands separators. -/
def pyFmtComma (n : ℤ) : String :=
  let digits := (toString n.natAbs).data
  (if n < 0 then "-" else "") ++ String.mk (commaGroupAux 0 digits.reverse).reverse

/-- Round half to even to the nearest integer (the rounding used by float
formatting), on our exact-rational float model. -/
def roundHalfEven (q : ℚ) : ℤ :=
  let f := ⌊q⌋
  let r := q - (f : ℚ)
  if r < 1/2 then f
  else if 1/2 < r then f + 1
  else if f % 2 = 0 then f else f + 1

/-- Python f-string `{x:.1f}` (only applied to non-negative quantities in the
source). -/
def pyFmt1f (q : ℚ) : String :=
  let t := roundHalfEven (q * 10)
  (if t < 0 then "-" else "") ++
    toString (t.natAbs / 10) ++ "." ++ toString (t.natAbs % 10)

/-- `_calculate_hnsw_m`: dataset-size-bucketed graph degree. -/
def calculate_hnsw_m (num_vectors : ℤ) : ℤ :=
  if num_vectors < 100000 then 8
  else if num_vectors < 1000000 then 16
  else if num_vectors < 10000000 then 24
  else 32

/-- `_calculate_pq_m`: first of [32, 16, 8, 4] dividing `dimensions`, else 8. -/
def calculate_pq_m (dimensions : ℤ) : ℤ :=
  if dimensions % 32 = 0 then 32
  else if dimensions % 16 = 0 then 16
  else if dimensions % 8 = 0 then 8
  else if dimensions % 4 = 0 then 4
  else 8

/-- `_estimate_hnsw_memory`, with the source's default argument `M = 16`:
`N * (dims * 4 + M * 2 * 1.2)` bytes, converted to GiB. -/
def estimate_hnsw_memory (num_vectors dimensions : ℤ) (M : ℤ := 16) : ℚ :=
  let bytes_per_vector : ℚ := (dimensions : ℚ) * 4 + (M : ℚ) * 2 * (6/5)
  let total_bytes : ℚ := (num_vectors : ℚ) * bytes_per_vector
  total_bytes / 2^30

/-- `_estimate_build_time` (minutes). -/
def estimate_build_time (num_vectors : ℤ) (dimensions : ℤ)
    (index_type : String) (params : List (String × ℤ)) : ℚ :=
  let base_time : ℚ := (num_vectors : ℚ) / 100000
  if index_type = "HNSW" then
    base_time * 3 * ((dictGet params "M" 16 : ℚ) / 16)
  else if index_type = "IVF_FLAT" then
    base_time * 2
  else if index_type = "IVF_PQ" then
    base_time * 3
  else
    base_time

/-- Rational stand-in for the floating-point `math.log10` used by
`_estimate_latency`'s HNSW branch (`Nat.log` is its integer part).  The HNSW
branch's value is only stored in HNSW recommendations, which — as proven
below — are never completed by the code, so no claim observes this value. -/
def pylog10 (n : ℤ) : ℚ :=
  (Nat.log 10 n.toNat : ℚ)

/-- `_estimate_latency` (P95 milliseconds). -/
def estimate_latency (num_vectors : ℤ)
    (index_type : String) (params : List (String × ℤ)) : ℚ :=
  if index_type = "HNSW" then
    10 + pylog10 num_vectors * 5 + ((dictGet params "ef" 64 : ℚ) / 64) * 10
  else if index_type = "IVF_FLAT" then
    15 + ((dictGet params "nprobe" 32 : ℚ) / 32) * 20
  else
    20

/-- `_recommend_flat`. -/
def recommend_flat (num_vectors dimensions : ℤ) : Recommendation :=
  { index_type := IndexType.FLAT
    params := []
    memory_gb := (num_vectors : ℚ) * (dimensions : ℚ) * 4 / 2^30
    build_time_min := 1/10
    query_latency_p95 := 5
    recall_at_10 := 1
    reason := "Small dataset (" ++ pyFmtComma num_vectors ++
      " vectors) - brute force optimal"
    confidence := 99/100
    alternatives := [] }

/-- `_recommend_diskann`. -/
def recommend_diskann (num_vectors dimensions : ℤ)
    (latency_requirement_ms : ℚ) : Recommendation :=
  let search_list_size := pyInt (latency_requirement_ms / 2)
  { index_type := IndexType.DISK_ANN
    params := [("search_list_size", search_list_size)]
    memory_gb := (num_vectors : ℚ) * 100 / 2^30
    build_time_min := (num_vectors : ℚ) / 50000 * 5
    query_latency_p95 := latency_requirement_ms * (3/2)
    recall_at_10 := 92/100
    reason := "Billion-scale dataset (" ++ pyFmtComma num_vectors ++ " vectors)"
    confidence := 9/10
    alternatives := [] }

/-- `_recommend_ivf_sq8`.  Note: unlike `_recommend_ivf_flat`, the source does
NOT clamp `nlist` here. -/
def recommend_ivf_sq8 (num_vectors dimensions : ℤ) : Recommendation :=
  let nlist := pySqrtInt num_vectors
  { index_type := IndexType.IVF_SQ8
    params := [("nlist", nlist), ("nprobe", max 16 (pyInt ((nlist : ℚ) * (1/10))))]
    memory_gb := (num_vectors : ℚ) * (dimensions : ℚ) * 4 / 2^30 * (3/5)
    build_time_min := (num_vectors : ℚ) / 90000 * (5/2)
    query_latency_p95 := 12 + (num_vectors : ℚ) / 1000000 * (11/2)
    recall_at_10 := 95/100
    reason := "Good balance of memory and accuracy"
    confidence := 87/100
    alternatives := [] }

/-- `_recommend_gpu_ivf`.  `memory_budget_gb` is a parameter of the source
function but is never read in its body. -/
def recommend_gpu_ivf (num_vectors dimensions : ℤ)
    (memory_budget_gb : ℚ) : Recommendation :=
  { index_type := IndexType.GPU_IVF_FLAT
    params := [("nlist", pySqrtInt num_vectors), ("nprobe", 64)]
    memory_gb := (num_vectors : ℚ) * (dimensions : ℚ) * 4 / 2^30 * (6/5)
    build_time_min := (num_vectors : ℚ) / 500000
    query_latency_p95 := 5
    recall_at_10 := 98/100
    reason := "High QPS requirement with GPU available"
    confidence := 91/100
    alternatives := [] }

/-- `_recommend_ivf_pq` (terminates: its alternatives, IVF_SQ8 and DiskANN,
are assembled without recursion). -/
def recommend_ivf_pq (num_vectors dimensions : ℤ) : Recommendation :=
  let nlist := max 128 (min (pySqrtInt num_vectors) 16384)
  let m := calculate_pq_m dimensions
  let nbits : ℤ := 8
  let nprobe := max 32 (pyInt ((nlist : ℚ) * (3/20)))
  let memory_gb : ℚ := (num_vectors : ℚ) * (dimensions : ℚ) * 4 / 2^30 * (1/4)
  { index_type := IndexType.IVF_PQ
    params := [("nlist", nlist), ("m", m), ("nbits", nbits), ("nprobe", nprobe)]
    memory_gb := memory_gb
    build_time_min := (num_vectors : ℚ) / 80000 * 3
    query_latency_p95 := 15 + (num_vectors : ℚ) / 1000000 * 6
    recall_at_10 := 9/10
    reason := "Memory budget (" ++ pyFmt1f memory_gb ++ "GB) requires compression"
    confidence := 85/100
    alternatives := [recommend_ivf_sq8 num_vectors dimensions,
                     recommend_diskann num_vectors dimensions 100] }

/-- The fields of `_recommend_ivf_flat` (source lines 177-207) apart from the
alternatives, which are attached by the fueled wrapper below because their
construction recurses into `_recommend_hnsw`. -/
def ivf_flat_core (num_vectors dimensions : ℤ) : Recommendation :=
  let nlist := max 128 (min (pySqrtInt num_vectors) 16384)
  let nprobe := max 16 (pyInt ((nlist : ℚ) * (1/10)))
  { index_type := IndexType.IVF_FLAT
    params := [("nlist", nlist), ("nprobe", nprobe)]
    memory_gb := (num_vectors : ℚ) * (dimensions : ℚ) * 4 / 2^30 * (11/10)
    build_time_min := (num_vectors : ℚ) / 100000 * 2
    query_latency_p95 := 10 + (num_vectors : ℚ) / 1000000 * 5
    recall_at_10 := 98/100
    reason := "Balanced performance and memory usage"
    confidence := 88/100
    alternatives := [] }

/-- The fields of `_recommend_hnsw` (source lines 126-168) apart from the
alternatives, which are attached by the fueled wrapper below because their
construction recurses into `_recommend_ivf_flat`. -/
def hnsw_core (num_vectors dimensions : ℤ) : Recommendation :=
  let M := calculate_hnsw_m num_vectors
  let ef_construction := M * 15
  let ef := M * 4
  { index_type := IndexType.HNSW
    params := [("M", M), ("efConstruction", ef_construction), ("ef", ef)]
    memory_gb := estimate_hnsw_memory num_vectors dimensions M
    build_time_min := estimate_build_time num_vectors dimensions "HNSW" [("M", M)]
    query_latency_p95 := estimate_latency num_vectors "HNSW" [("ef", ef)]
    recall_at_10 := 95/100
    reason := "Low latency requirement (<30ms) with sufficient memory"
    confidence := 92/100
    alternatives := [] }

mutual

/-- `_recommend_hnsw`: its first alternative is a full `_recommend_ivf_flat`
call, which in turn calls `_recommend_hnsw` — unbounded mutual recursion in
the source, modelled by fuel. -/
def recommend_hnsw (fuel : ℕ) (num_vectors dimensions : ℤ) :
    Option Recommendation :=
  match fuel with
  | 0 => none
  | fuel' + 1 =>
    (recommend_ivf_flat fuel' num_vectors dimensions).map fun alt1 =>
      { hnsw_core num_vectors dimensions with
        alternatives := [alt1, recommend_diskann num_vectors dimensions 100] }

/-- `_recommend_ivf_flat`: its first alternative is a full `_recommend_hnsw`
call — the other half of the unbounded mutual recursion. -/
def recommend_ivf_flat (fuel : ℕ) (num_vectors dimensions : ℤ) :
    Option Recommendation :=
  match fuel with
  | 0 => none
  | fuel' + 1 =>
    (recommend_hnsw fuel' num_vectors dimensions).map fun alt1 =>
      { ivf_flat_core num_vectors dimensions with
        alternatives := [alt1, recommend_ivf_sq8 num_vectors dimensions] }

end

/-- The local `hnsw_memory` probe of `recommend` (source line 105): it calls
`_estimate_hnsw_memory` without an `M` argument, so the default `M = 16`
applies. -/
def hnsw_memory_probe (num_vectors dimensions : ℤ) : ℚ :=
  estimate_hnsw_memory num_vectors dimensions

/-- `IndexAdvisor.recommend`: the six-rule decision chain (source lines
92-124), with fuel threaded to the two non-terminating assemblers.  The
source binds the probe once as the local `hnsw_memory = hnsw_memory_probe`;
here the probe calls are inlined at its three read sites. -/
def recommend (fuel : ℕ) (r : Requirement) : Option Recommendation :=
  if r.num_vectors < 10000 then
    some (recommend_flat r.num_vectors r.dimensions)
  else if r.num_vectors > 100000000 then
    some (recommend_diskann r.num_vectors r.dimensions r.latency_requirement_ms)
  else if r.latency_requirement_ms < 30 ∧
      hnsw_memory_probe r.num_vectors r.dimensions <
        r.memory_budget_gb * (4/5) then
    recommend_hnsw fuel r.num_vectors r.dimensions
  else if r.qps_target > 5000 ∧ r.has_gpu then
    some (recommend_gpu_ivf r.num_vectors r.dimensions r.memory_budget_gb)
  else if r.memory_budget_gb <
      hnsw_memory_probe r.num_vectors r.dimensions * (1/2) then
    some (recommend_ivf_pq r.num_vectors r.dimensions)
  else if r.memory_budget_gb <
      hnsw_memory_probe r.num_vectors r.dimensions * (7/10) then
    some (recommend_ivf_sq8 r.num_vectors r.dimensions)
  else
    recommend_ivf_flat fuel r.num_vectors r.dimensions

/-- The spec's validity predicate on requirements (§3, §7a): the four listed
numeric fields are positive. -/
def validRequirement (r : Requirement) : Prop :=
  0 < r.num_vectors ∧ 0 < r.dimensions ∧
    0 < r.latency_requirement_ms ∧ 0 < r.memory_budget_gb

instance (r : Requirement) : Decidable (validRequirement r) := by
  unfold validRequirement
  infer_instance

/-- `select` as the spec §4.1 words it: the six ordered rules, first match
wins; written from the spec for comparison with `recommend`. -/
def select (r : Requirement) : IndexType :=
  if r.num_vectors < 10000 then IndexType.FLAT
  else if r.num_vectors > 100000000 then IndexType.DISK_ANN
  else if r.latency_requirement_ms < 30 ∧
      estimate_hnsw_memory r.num_vectors r.dimensions <
        (4/5) * r.memory_budget_gb then
    IndexType.HNSW
  else if r.qps_target > 5000 ∧ r.has_gpu then IndexType.GPU_IVF_FLAT
  else if r.memory_budget_gb <
      (1/2) * estimate_hnsw_memory r.num_vectors r.dimensions then
    IndexType.IVF_PQ
  else if r.memory_budget_gb <
      (7/10) * estimate_hnsw_memory r.num_vectors r.dimensions then
    IndexType.IVF_SQ8
  else IndexType.IVF_FLAT

/-! ### Helper lemmas (shared across claims) -/

/-- The mutual alternatives recursion of `_recommend_hnsw` and
`_recommend_ivf_flat` never bottoms out: no amount of fuel produces a value,
i.e. the Python calls never return. -/
theorem alternatives_recursion_diverges :
    ∀ (fuel : ℕ) (n d : ℤ),
      recommend_hnsw fuel n d = none ∧ recommend_ivf_flat fuel n d = none := by
  intro fuel
  induction fuel with
  | zero => exact fun n d => ⟨rfl, rfl⟩
  | succ f ih =>
    intro n d
    constructor
    · show recommend_hnsw (f + 1) n d = none
      rw [recommend_hnsw, (ih n d).2]
      rfl
    · show recommend_ivf_flat (f + 1) n d = none
      rw [recommend_ivf_flat, (ih n d).1]
      rfl

/-- Python `int(k * 0.1)` for a non-negative integer `k` is `⌊k / 10⌋`. -/
theorem pyInt_mul_tenth (k : ℤ) (hk : 0 ≤ k) :
    pyInt ((k : ℚ) * (1/10)) = ⌊(k : ℚ) / 10⌋ := by
  rw [pyInt, if_pos (mul_nonneg (by exact_mod_cast hk) (by norm_num)),
    mul_one_div]

/-- Evaluation rule for `pySqrtInt`: `Nat.sqrt` is defined by well-founded
recursion, so concrete values are certified through `Nat.eq_sqrt`. -/
theorem pySqrtInt_eq (n : ℤ) (k : ℕ) (h1 : k * k ≤ n.toNat)
    (h2 : n.toNat < (k + 1) * (k + 1)) : pySqrtInt n = (k : ℤ) := by
  rw [pySqrtInt]
  norm_cast
  exact (Nat.eq_sqrt.mpr ⟨h1, h2⟩).symm

/-- Any result `recommend` actually returns with family `GPU_IVF_FLAT` is the
value assembled by `_recommend_gpu_ivf`. -/
theorem recommend_gpu_only_from_rule_four (fuel : ℕ) (r : Requirement)
    (rec : Recommendation) (h : recommend fuel r = some rec)
    (ht : rec.index_type = IndexType.GPU_IVF_FLAT) :
    rec = recommend_gpu_ivf r.num_vectors r.dimensions r.memory_budget_gb := by
  rw [recommend] at h
  split_ifs at h
  · rw [← Option.some.inj h] at ht
    exact absurd ht (by simp [recommend_flat])
  · rw [← Option.some.inj h] at ht
    exact absurd ht (by simp [recommend_diskann])
  · rw [(alternatives_recursion_diverges fuel r.num_vectors r.dimensions).1] at h
    exact Option.noConfusion h
  · exact (Option.some.inj h).symm
  · rw [← Option.some.inj h] at ht
    exact absurd ht (by simp [recommend_ivf_pq])
  · rw [← Option.some.inj h] at ht
    exact absurd ht (by simp [recommend_ivf_sq8])
  · rw [(alternatives_recursion_diverges fuel r.num_vectors r.dimensions).2] at h
    exact Option.noConfusion h

/-! ### Claim theorems -/

/-- C1: the claim says that for every valid Requirement `recommend`
terminates with one of the seven implemented families.  The code violates
this: at the valid requirement below, rule 3 routes to `_recommend_hnsw`,
whose alternatives recursion never returns (modelled: every fuel gives
`none`), so `recommend` does not terminate. -/
theorem recommend_never_returns_for_hnsw_requirement :
    validRequirement ⟨50000, 128, 10, 100, 100, "general", false⟩ ∧
      ∀ fuel : ℕ,
        recommend fuel ⟨50000, 128, 10, 100, 100, "general", false⟩ = none := by
  refine ⟨by decide, fun fuel => ?_⟩
  rw [recommend]
  norm_num [hnsw_memory_probe, estimate_hnsw_memory]
  exact (alternatives_recursion_diverges fuel 50000 128).1

/-- C2 counterexample: the requirement with `num_vectors = 0` is invalid, yet
`recommend` does not reject it — rule 1 fires and a FLAT recommendation is
returned (no `InvalidRequirement` condition exists anywhere in the code). -/
theorem invalid_requirement_not_rejected :
    (⟨0, 128, 10, 4, 100, "general", false⟩ : Requirement).num_vectors ≤ 0 ∧
    recommend 1 ⟨0, 128, 10, 4, 100, "general", false⟩ =
      some (recommend_flat 0 128) ∧
    (recommend_flat 0 128).index_type = IndexType.FLAT :=
  ⟨by decide, rfl, rfl⟩

/-- C2 amended: `recommend` performs no input validation; any requirement
with non-positive `num_vectors` flows straight into the rule chain and, since
it is below 10,000, yields a FLAT recommendation. -/
theorem nonpositive_num_vectors_yields_flat :
    ∀ (fuel : ℕ) (r : Requirement), r.num_vectors ≤ 0 →
      recommend fuel r = some (recommend_flat r.num_vectors r.dimensions) := by
  intro fuel r h
  rw [recommend, if_pos (lt_of_le_of_lt h (by norm_num))]

/-- C2 amended, witness at a concrete invalid input. -/
theorem nonpositive_num_vectors_yields_flat_witness :
    recommend 1 ⟨-5, 64, 10, 4, 0, "general", false⟩ =
      some (recommend_flat (-5) 64) :=
  nonpositive_num_vectors_yields_flat 1 ⟨-5, 64, 10, 4, 0, "general", false⟩
    (by decide)

/-- C4 counterexample: at `num_vectors = 50,000` the bucketed default graph
degree is 8, but the probe `recommend` consults (source line 105) calls
`_estimate_hnsw_memory` with no `M` argument, i.e. with the fixed default 16
— a different value than the bucketed-degree probe the claim asserts. -/
theorem probe_ignores_size_bucket :
    calculate_hnsw_m 50000 = 8 ∧
    hnsw_memory_probe 50000 128 = estimate_hnsw_memory 50000 128 16 ∧
    hnsw_memory_probe 50000 128 ≠
      estimate_hnsw_memory 50000 128 (calculate_hnsw_m 50000) :=
  ⟨rfl, rfl,
    by norm_num [hnsw_memory_probe, estimate_hnsw_memory, calculate_hnsw_m]⟩

/-- C4 amended: the rule-3/5/6 probe is always evaluated with the fixed
default graph degree 16 (the default argument of `_estimate_hnsw_memory`),
independent of the `num_vectors` bucket and of the family finally selected;
it differs from the bucketed-degree value (e.g. at 50,000 vectors). -/
theorem probe_uses_fixed_default_degree :
    (∀ n d : ℤ, hnsw_memory_probe n d = estimate_hnsw_memory n d 16) ∧
    hnsw_memory_probe 50000 128 ≠
      estimate_hnsw_memory 50000 128 (calculate_hnsw_m 50000) :=
  ⟨fun _ _ => rfl,
    by norm_num [hnsw_memory_probe, estimate_hnsw_memory, calculate_hnsw_m]⟩

/-- C7 counterexample: at one million vectors `_recommend_ivf_flat` stores a
P95 latency of 15 ms (its inline `10 + N/1e6 * 5` formula), while the claim's
`15 + (nprobe/32)*20` formula — which is exactly `_estimate_latency`'s
IVF_FLAT branch — would give 77.5 ms for the recommendation's own
`nprobe = 100`. -/
theorem ivf_flat_latency_mismatch :
    (ivf_flat_core 1000000 128).query_latency_p95 = 15 ∧
    dictGet (ivf_flat_core 1000000 128).params "nprobe" 0 = 100 ∧
    estimate_latency 1000000 "IVF_FLAT" [("nprobe", 100)] = 155/2 ∧
    (15 : ℚ) ≠ 155/2 := by
  have hs : pySqrtInt 1000000 = (1000 : ℤ) :=
    pySqrtInt_eq 1000000 1000 (by decide) (by decide)
  refine ⟨by norm_num [ivf_flat_core], ?_, ?_, by norm_num⟩
  · have hne : ¬("nlist" : String) = "nprobe" := by decide
    norm_num [ivf_flat_core, dictGet, hs, pyInt, min_def, max_def, hne]
  · have hne : ¬("IVF_FLAT" : String) = "HNSW" := by decide
    norm_num [estimate_latency, dictGet, hne]

/-- C7 amended: the latency estimate `_recommend_ivf_flat` stores is
`10 + (num_vectors/1,000,000)*5` ms; the `15 + (nprobe/32)*20` model lives in
`_estimate_latency`'s IVF_FLAT branch, which `_recommend_ivf_flat` never
calls. -/
theorem ivf_flat_latency_formula :
    ∀ n d : ℤ,
      (ivf_flat_core n d).query_latency_p95 = 10 + (n : ℚ)/1000000 * 5 ∧
      estimate_latency n "IVF_FLAT"
          [("nprobe", dictGet (ivf_flat_core n d).params "nprobe" 0)] =
        15 + ((dictGet (ivf_flat_core n d).params "nprobe" 0 : ℤ) : ℚ)/32 * 20 :=
  fun _ _ => ⟨rfl, rfl⟩

/-- C8 counterexample: `_recommend_ivf_pq` computes build time as
`N/80,000 * 3` (giving 30 minutes at 800,000 vectors), not the claimed
`base * 3` with `base = N/100,000` (which would give 24); the input below
reaches rule 5, so this recommendation is actually returned. -/
theorem ivf_pq_build_time_mismatch :
    recommend 1 ⟨800000, 128, 100, 1/10, 0, "general", false⟩ =
      some (recommend_ivf_pq 800000 128) ∧
    (recommend_ivf_pq 800000 128).build_time_min = 30 ∧
    (800000 : ℚ)/100000 * 3 = 24 ∧
    (30 : ℚ) ≠ 24 := by
  refine ⟨?_, by norm_num [recommend_ivf_pq], by norm_num, by norm_num⟩
  rw [recommend]
  norm_num [hnsw_memory_probe, estimate_hnsw_memory]

/-- C8 amended: the IVF_PQ build-time estimate is `(N/80,000) * 3` minutes
(the inline formula of `_recommend_ivf_pq`); `_estimate_build_time`'s IVF_PQ
branch does compute `base * 3` with `base = N/100,000` but is never called by
`_recommend_ivf_pq`. -/
theorem ivf_pq_build_time_formula :
    ∀ n d : ℤ,
      (recommend_ivf_pq n d).build_time_min = (n : ℚ)/80000 * 3 ∧
      estimate_build_time n d "IVF_PQ" [] = (n : ℚ)/100000 * 3 :=
  fun _ _ => ⟨rfl, rfl⟩

/-- Enumerates membership in the PQ divisor candidate list. -/
theorem mem_pq_list {m : ℤ} (hm : m ∈ ([32, 16, 8, 4] : List ℤ)) :
    m = 32 ∨ m = 16 ∨ m = 8 ∨ m = 4 := by simpa using hm

/-- C3: whenever `recommend` returns a Recommendation for a valid
Requirement, its family is the first matching rule's outcome of the spec's
ordered chain (`select`); and `num_vectors` exactly 10,000 (resp. exactly
100,000,000) falls past rule 1 (resp. rule 2) to a later rule. -/
theorem recommend_family_eq_select :
    (∀ (fuel : ℕ) (r : Requirement) (rec : Recommendation),
        validRequirement r → recommend fuel r = some rec →
          rec.index_type = select r) ∧
    (∀ r : Requirement, r.num_vectors = 10000 → select r ≠ IndexType.FLAT) ∧
    (∀ r : Requirement, r.num_vectors = 100000000 →
        select r ≠ IndexType.DISK_ANN) := by
  refine ⟨?_, ?_, ?_⟩
  · intro fuel r rec _ h
    rw [recommend] at h
    split_ifs at h with h1 h2 h3 h4 h5 h6
    · obtain rfl := Option.some.inj h
      rw [select, if_pos h1]
      rfl
    · obtain rfl := Option.some.inj h
      rw [select, if_neg h1, if_pos h2]
      rfl
    · rw [(alternatives_recursion_diverges fuel r.num_vectors r.dimensions).1] at h
      exact Option.noConfusion h
    · obtain rfl := Option.some.inj h
      rw [select, if_neg h1, if_neg h2,
        if_neg (fun hc => h3 ⟨hc.1, by
          have hcr := hc.2
          rw [mul_comm] at hcr
          exact hcr⟩),
        if_pos h4]
      rfl
    · obtain rfl := Option.some.inj h
      rw [select, if_neg h1, if_neg h2,
        if_neg (fun hc => h3 ⟨hc.1, by
          have hcr := hc.2
          rw [mul_comm] at hcr
          exact hcr⟩),
        if_neg h4,
        if_pos (show r.memory_budget_gb <
            (1/2) * estimate_hnsw_memory r.num_vectors r.dimensions by
          rw [mul_comm]
          exact h5)]
      rfl
    · obtain rfl := Option.some.inj h
      rw [select, if_neg h1, if_neg h2,
        if_neg (fun hc => h3 ⟨hc.1, by
          have hcr := hc.2
          rw [mul_comm] at hcr
          exact hcr⟩),
        if_neg h4,
        if_neg (fun hc => h5 (by
          rw [mul_comm] at hc
          exact hc)),
        if_pos (show r.memory_budget_gb <
            (7/10) * estimate_hnsw_memory r.num_vectors r.dimensions by
          rw [mul_comm]
          exact h6)]
      rfl
    · rw [(alternatives_recursion_diverges fuel r.num_vectors r.dimensions).2] at h
      exact Option.noConfusion h
  · intro r hn hF
    rw [select, hn] at hF
    norm_num at hF
    split at hF
    · exact absurd hF (by decide)
    · split at hF
      · exact absurd hF (by decide)
      · split at hF
        · exact absurd hF (by decide)
        · split at hF
          · exact absurd hF (by decide)
          · exact absurd hF (by decide)
  · intro r hn hF
    rw [select, hn] at hF
    norm_num at hF
    split at hF
    · exact absurd hF (by decide)
    · split at hF
      · exact absurd hF (by decide)
      · split at hF
        · exact absurd hF (by decide)
        · split at hF
          · exact absurd hF (by decide)
          · exact absurd hF (by decide)

/-- C3 witness: at 5,000 vectors the first rule fires, `recommend` returns a
FLAT recommendation, and its family agrees with `select`. -/
theorem recommend_family_eq_select_witness :
    validRequirement ⟨5000, 128, 10, 4, 100, "general", false⟩ ∧
    recommend 1 ⟨5000, 128, 10, 4, 100, "general", false⟩ =
      some (recommend_flat 5000 128) ∧
    (recommend_flat 5000 128).index_type =
      select ⟨5000, 128, 10, 4, 100, "general", false⟩ :=
  ⟨by decide, rfl,
    recommend_family_eq_select.1 1 ⟨5000, 128, 10, 4, 100, "general", false⟩
      (recommend_flat 5000 128) (by decide) rfl⟩

/-- C5: the claim's depth-cap invariant fails in the code.  First conjunct:
the HNSW and IVF_FLAT assemblers never complete (their mutual alternatives
recursion has no depth cap), so the claimed HNSW alternatives
`{IVF_FLAT, DISK_ANN}` and IVF_FLAT alternatives `{HNSW, IVF_SQ8}` are never
produced.  Second conjunct: for every recommendation `recommend` does
return, the 0-2 alternatives never carry the primary family and have empty
alternatives. -/
theorem alternatives_depth_cap_violated :
    (∀ (fuel : ℕ) (n d : ℤ),
        recommend_hnsw fuel n d = none ∧ recommend_ivf_flat fuel n d = none) ∧
    ∀ (fuel : ℕ) (r : Requirement) (rec : Recommendation),
      recommend fuel r = some rec →
        rec.alternatives.length ≤ 2 ∧
          ∀ alt ∈ rec.alternatives,
            alt.index_type ≠ rec.index_type ∧ alt.alternatives = [] := by
  refine ⟨alternatives_recursion_diverges, ?_⟩
  intro fuel r rec h
  rw [recommend] at h
  split_ifs at h
  · rw [← Option.some.inj h]
    exact ⟨by simp [recommend_flat], by simp [recommend_flat]⟩
  · rw [← Option.some.inj h]
    exact ⟨by simp [recommend_diskann], by simp [recommend_diskann]⟩
  · rw [(alternatives_recursion_diverges fuel r.num_vectors r.dimensions).1] at h
    exact Option.noConfusion h
  · rw [← Option.some.inj h]
    exact ⟨by simp [recommend_gpu_ivf], by simp [recommend_gpu_ivf]⟩
  · rw [← Option.some.inj h]
    refine ⟨by simp [recommend_ivf_pq], ?_⟩
    intro alt halt
    simp only [recommend_ivf_pq, List.mem_cons, List.not_mem_nil,
      or_false] at halt
    rcases halt with rfl | rfl
    · exact ⟨by simp [recommend_ivf_sq8, recommend_ivf_pq], rfl⟩
    · exact ⟨by simp [recommend_diskann, recommend_ivf_pq], rfl⟩
  · rw [← Option.some.inj h]
    exact ⟨by simp [recommend_ivf_sq8], by simp [recommend_ivf_sq8]⟩
  · rw [(alternatives_recursion_diverges fuel r.num_vectors r.dimensions).2] at h
    exact Option.noConfusion h

/-- C5 witness: a requirement reaching rule 5, whose returned IVF_PQ
recommendation has two alternatives satisfying the invariant. -/
theorem alternatives_depth_cap_violated_witness :
    (recommend_ivf_pq 700000 128).alternatives.length ≤ 2 ∧
      ∀ alt ∈ (recommend_ivf_pq 700000 128).alternatives,
        alt.index_type ≠ (recommend_ivf_pq 700000 128).index_type ∧
          alt.alternatives = [] := by
  have hreach : recommend 1 ⟨700000, 128, 100, 1/10, 0, "general", false⟩ =
      some (recommend_ivf_pq 700000 128) := by
    rw [recommend]
    norm_num [hnsw_memory_probe, estimate_hnsw_memory]
  exact alternatives_depth_cap_violated.2 1
    ⟨700000, 128, 100, 1/10, 0, "general", false⟩
    (recommend_ivf_pq 700000 128) hreach

/-- C6 counterexample: at `num_vectors = 10,000` (inside the claim's
[10,000, 16,384) window) `recommend` returns an IVF_SQ8 recommendation whose
`nlist` is 100, not the claimed clamped value 128 — `_recommend_ivf_sq8`
skips the clamp.  Also, `nlist` truncates the square root rather than
rounding it: at 30,103 vectors (√30103 ≈ 173.5+, which rounds to 174 since
347² < 4·30103 < 348²) `_recommend_ivf_flat` stores 173. -/
theorem ivf_sq8_nlist_unclamped :
    recommend 1 ⟨10000, 128, 100, 3/1000, 0, "general", false⟩ =
      some (recommend_ivf_sq8 10000 128) ∧
    dictGet (recommend_ivf_sq8 10000 128).params "nlist" 0 = 100 ∧
    (100 : ℤ) ≠ 128 ∧
    dictGet (ivf_flat_core 30103 128).params "nlist" 0 = 173 ∧
    (347 : ℤ)^2 < 4 * 30103 ∧ (30103 : ℤ) < 174^2 := by
  have hs1 : pySqrtInt 10000 = (100 : ℤ) :=
    pySqrtInt_eq 10000 100 (by decide) (by decide)
  have hs2 : pySqrtInt 30103 = (173 : ℤ) :=
    pySqrtInt_eq 30103 173 (by decide) (by decide)
  refine ⟨?_, ?_, by decide, ?_, by decide, by decide⟩
  · rw [recommend]
    norm_num [hnsw_memory_probe, estimate_hnsw_memory]
  · simp [recommend_ivf_sq8, dictGet, hs1]
  · norm_num [ivf_flat_core, dictGet, hs2, min_def, max_def]

/-- C6 amended: IVF_FLAT uses `nlist = clamp(⌊√N⌋, 128, 16384)` while
IVF_SQ8 uses the unclamped `nlist = ⌊√N⌋`; both use
`nprobe = max(16, ⌊nlist/10⌋)` (truncation, not rounding); consequently for
`N` in [10,000, 16,384) an IVF_SQ8 recommendation's `nlist` is at most 127,
never 128. -/
theorem ivf_nlist_nprobe_formulas :
    ∀ n d : ℤ,
      dictGet (ivf_flat_core n d).params "nlist" 0 =
        max 128 (min (pySqrtInt n) 16384) ∧
      dictGet (ivf_flat_core n d).params "nprobe" 0 =
        max 16 ⌊((max 128 (min (pySqrtInt n) 16384) : ℤ) : ℚ) / 10⌋ ∧
      dictGet (recommend_ivf_sq8 n d).params "nlist" 0 = pySqrtInt n ∧
      dictGet (recommend_ivf_sq8 n d).params "nprobe" 0 =
        max 16 ⌊((pySqrtInt n : ℤ) : ℚ) / 10⌋ ∧
      (10000 ≤ n → n < 16384 →
        dictGet (recommend_ivf_sq8 n d).params "nlist" 0 ≤ 127) := by
  intro n d
  have hflat0 : (0:ℤ) ≤ max 128 (min (pySqrtInt n) 16384) :=
    le_trans (by norm_num) (le_max_left _ _)
  have hsq0 : (0:ℤ) ≤ pySqrtInt n := Int.natCast_nonneg _
  have hne : ¬("nlist" : String) = "nprobe" := by decide
  refine ⟨?_, ?_, ?_, ?_, ?_⟩
  · simp [ivf_flat_core, dictGet]
  · show max 16 (pyInt (((max 128 (min (pySqrtInt n) 16384) : ℤ) : ℚ) * (1/10))) =
      max 16 ⌊((max 128 (min (pySqrtInt n) 16384) : ℤ) : ℚ) / 10⌋
    rw [pyInt_mul_tenth _ hflat0]
  · simp [recommend_ivf_sq8, dictGet]
  · show max 16 (pyInt (((pySqrtInt n : ℤ) : ℚ) * (1/10))) =
      max 16 ⌊((pySqrtInt n : ℤ) : ℚ) / 10⌋
    rw [pyInt_mul_tenth _ hsq0]
  · intro _ h2
    have he : dictGet (recommend_ivf_sq8 n d).params "nlist" 0 = pySqrtInt n := by
      simp [recommend_ivf_sq8, dictGet]
    rw [he, pySqrtInt]
    have hsqlt : Nat.sqrt n.toNat < 128 := Nat.sqrt_lt.mpr (by omega)
    omega

/-- C6 amended, witness at `num_vectors = 10,000`. -/
theorem ivf_nlist_nprobe_formulas_witness :
    dictGet (recommend_ivf_sq8 10000 128).params "nlist" 0 = pySqrtInt 10000 ∧
    dictGet (recommend_ivf_sq8 10000 128).params "nlist" 0 ≤ 127 :=
  ⟨(ivf_nlist_nprobe_formulas 10000 128).2.2.1,
   (ivf_nlist_nprobe_formulas 10000 128).2.2.2.2 (by decide) (by decide)⟩

/-- C9: `_calculate_pq_m` returns the largest value among 32, 16, 8, 4 that
evenly divides `dimensions` (the result always divides and dominates every
candidate divisor), and returns the fallback 8 when none divides; in
particular 101 gives 8 and 100 gives 4. -/
theorem pq_m_largest_divisor :
    (∀ d : ℤ,
        calculate_pq_m d ∈ ([32, 16, 8, 4] : List ℤ) ∧
        ((∃ m ∈ ([32, 16, 8, 4] : List ℤ), m ∣ d) →
          calculate_pq_m d ∣ d ∧
            ∀ m ∈ ([32, 16, 8, 4] : List ℤ), m ∣ d → m ≤ calculate_pq_m d) ∧
        ((∀ m ∈ ([32, 16, 8, 4] : List ℤ), ¬ m ∣ d) → calculate_pq_m d = 8)) ∧
    calculate_pq_m 101 = 8 ∧ calculate_pq_m 100 = 4 := by
  refine ⟨?_, by decide, by decide⟩
  intro d
  by_cases h32 : d % 32 = 0
  · have e : calculate_pq_m d = 32 := by simp [calculate_pq_m, h32]
    rw [e]
    refine ⟨by decide, fun _ => ⟨Int.dvd_of_emod_eq_zero h32, ?_⟩,
      fun hall => absurd (Int.dvd_of_emod_eq_zero h32) (hall 32 (by decide))⟩
    intro m hm _
    rcases mem_pq_list hm with rfl | rfl | rfl | rfl <;> decide
  · by_cases h16 : d % 16 = 0
    · have e : calculate_pq_m d = 16 := by simp [calculate_pq_m, h32, h16]
      rw [e]
      refine ⟨by decide, fun _ => ⟨Int.dvd_of_emod_eq_zero h16, ?_⟩,
        fun hall => absurd (Int.dvd_of_emod_eq_zero h16) (hall 16 (by decide))⟩
      intro m hm hdvd
      rcases mem_pq_list hm with rfl | rfl | rfl | rfl
      · exact absurd (Int.emod_eq_zero_of_dvd hdvd) h32
      · decide
      · decide
      · decide
    · by_cases h8 : d % 8 = 0
      · have e : calculate_pq_m d = 8 := by simp [calculate_pq_m, h32, h16, h8]
        rw [e]
        refine ⟨by decide, fun _ => ⟨Int.dvd_of_emod_eq_zero h8, ?_⟩,
          fun hall => absurd (Int.dvd_of_emod_eq_zero h8) (hall 8 (by decide))⟩
        intro m hm hdvd
        rcases mem_pq_list hm with rfl | rfl | rfl | rfl
        · exact absurd (Int.emod_eq_zero_of_dvd hdvd) h32
        · exact absurd (Int.emod_eq_zero_of_dvd hdvd) h16
        · decide
        · decide
      · by_cases h4 : d % 4 = 0
        · have e : calculate_pq_m d = 4 := by
            simp [calculate_pq_m, h32, h16, h8, h4]
          rw [e]
          refine ⟨by decide, fun _ => ⟨Int.dvd_of_emod_eq_zero h4, ?_⟩,
            fun hall => absurd (Int.dvd_of_emod_eq_zero h4) (hall 4 (by decide))⟩
          intro m hm hdvd
          rcases mem_pq_list hm with rfl | rfl | rfl | rfl
          · exact absurd (Int.emod_eq_zero_of_dvd hdvd) h32
          · exact absurd (Int.emod_eq_zero_of_dvd hdvd) h16
          · exact absurd (Int.emod_eq_zero_of_dvd hdvd) h8
          · decide
        · have e : calculate_pq_m d = 8 := by
            simp [calculate_pq_m, h32, h16, h8, h4]
          rw [e]
          refine ⟨by decide, ?_, fun _ => rfl⟩
          rintro ⟨m, hm, hdvd⟩
          rcases mem_pq_list hm with rfl | rfl | rfl | rfl
          · exact absurd (Int.emod_eq_zero_of_dvd hdvd) h32
          · exact absurd (Int.emod_eq_zero_of_dvd hdvd) h16
          · exact absurd (Int.emod_eq_zero_of_dvd hdvd) h8
          · exact absurd (Int.emod_eq_zero_of_dvd hdvd) h4

/-- C9 witness: at `dimensions = 64` some candidate divides, and the chosen
`m` divides 64 and dominates every dividing candidate. -/
theorem pq_m_largest_divisor_witness :
    calculate_pq_m 64 ∣ 64 ∧
      ∀ m ∈ ([32, 16, 8, 4] : List ℤ), m ∣ 64 → m ≤ calculate_pq_m 64 :=
  (pq_m_largest_divisor.1 64).2.1 ⟨32, by decide, by decide⟩

/-- C10: two requirements differing only in `memory_budget_gb` that both
come back with family `GPU_IVF_FLAT` receive identical recommendations —
`_recommend_gpu_ivf` receives the budget but never reads it. -/
theorem gpu_ivf_independent_of_memory_budget :
    ∀ (n d : ℤ) (lat b₁ b₂ : ℚ) (q : ℤ) (uc : String) (g : Bool)
      (fuel₁ fuel₂ : ℕ) (r₁ r₂ : Recommendation),
      recommend fuel₁ ⟨n, d, lat, b₁, q, uc, g⟩ = some r₁ →
      recommend fuel₂ ⟨n, d, lat, b₂, q, uc, g⟩ = some r₂ →
      r₁.index_type = IndexType.GPU_IVF_FLAT →
      r₂.index_type = IndexType.GPU_IVF_FLAT →
      r₁ = r₂ := by
  intro n d lat b₁ b₂ q uc g fuel₁ fuel₂ r₁ r₂ h1 h2 ht1 ht2
  rw [recommend_gpu_only_from_rule_four fuel₁ ⟨n, d, lat, b₁, q, uc, g⟩ r₁ h1 ht1,
    recommend_gpu_only_from_rule_four fuel₂ ⟨n, d, lat, b₂, q, uc, g⟩ r₂ h2 ht2]
  rfl

/-- C10 witness: budgets 1 GB and 2 GB, both routed to rule 4, yield equal
GPU_IVF_FLAT recommendations. -/
theorem gpu_ivf_independent_of_memory_budget_witness :
    recommend 1 ⟨200000, 128, 100, 1, 6000, "general", true⟩ =
      some (recommend_gpu_ivf 200000 128 1) ∧
    recommend 1 ⟨200000, 128, 100, 2, 6000, "general", true⟩ =
      some (recommend_gpu_ivf 200000 128 2) ∧
    recommend_gpu_ivf 200000 128 1 = recommend_gpu_ivf 200000 128 2 := by
  have hr1 : recommend 1 ⟨200000, 128, 100, 1, 6000, "general", true⟩ =
      some (recommend_gpu_ivf 200000 128 1) := by
    rw [recommend]
    norm_num [hnsw_memory_probe, estimate_hnsw_memory]
  have hr2 : recommend 1 ⟨200000, 128, 100, 2, 6000, "general", true⟩ =
      some (recommend_gpu_ivf 200000 128 2) := by
    rw [recommend]
    norm_num [hnsw_memory_probe, estimate_hnsw_memory]
  exact ⟨hr1, hr2,
    gpu_ivf_independent_of_memory_budget 200000 128 100 1 2 6000 "general" true
      1 1 (recommend_gpu_ivf 200000 128 1) (recommend_gpu_ivf 200000 128 2)
      hr1 hr2 rfl rfl⟩

end IndexAdvisor
